import Mathlib

/-!
A shallow embedding of the user-account subsystem of MongoConductor
(`src/lib/users.js`), together with proofs about its token authorization
mechanism, confirmation state machine, access-grant model and action
orchestrators.

Modelling conventions:

* Wall-clock time is an `Int`, in milliseconds since the Unix epoch
  (JavaScript `Date.getTime()`); configured timeouts are in minutes and
  are converted with the factor `60000` exactly where the source converts
  (`Date.setMinutes`, `moment().add('minutes', t)`).
* A JavaScript value that may be `undefined` is an `Option`; JavaScript
  truthiness of a configured number (`x ? x : d`) is modelled by `jsOr`,
  where both `none` and `some 0` are falsy.
* The symmetric cipher (`crypto.createCipher` / `createDecipher`,
  including the hex transport encoding) is an external library; it is
  modelled as a pair of functions indexed by algorithm and key over an
  opaque ciphertext type `Tok`.  Encryption and `JSON.stringify` of the
  payload are fused into `enc`, decryption (`decipher.update/final`) and
  `JSON.parse` into `dec`; a `dec _ _ t = none` models either step
  throwing.  `JSON.stringify` of an *invalid* `Date` produces `null`, and
  `new Date(null)` is the epoch, so a token payload's expiration is an
  `Option Int` with `none` standing for that `null`.
* Each orchestrator returns its HTTP-shaped outcome (`Response`), the
  resulting persistent store, and the ordered list of collaborator
  effects it performed (lookups, persists, mail sends, session logout).
  An uncaught JavaScript exception is the outcome `Response.exn`.
* Collaborator operations implemented by external libraries
  (passport-local-mongoose registration / authentication / setPassword,
  the mongoose read filter) are modelled from their contracts in the
  specification, as noted on each definition; store and mail failures of
  collaborators are not modelled (the claims under proof never exercise
  them).
-/

namespace MongoConductor

/-- A configured notification template (`server.settings.mail.messages.*`):
an enable flag and the text body with `\x7bfirstName\x7d`,
`\x7blastName\x7d`, `\x7btoken\x7d` placeholders. -/
structure MessageTemplate where
  enabled : Bool
  text : String
  deriving Repr, DecidableEq

/-- The notification templates this core reads
(`server.settings.mail.messages`). -/
structure Messages where
  passwordResetRequest : Option MessageTemplate
  confirmEmail : Option MessageTemplate
  deriving Repr, DecidableEq

/-- The mail section of the settings (`server.settings.mail`). -/
structure MailSettings where
  messages : Option Messages
  deriving Repr, DecidableEq

/-- Per-token-class settings
(`server.settings.authentication.resetPasswordToken` /
`.confirmEmailToken`): TTL in minutes (absent when unconfigured), cipher
algorithm name, and the symmetric key (called `password` in the source). -/
structure TokenSettings where
  timeout : Option Int
  algorithm : String
  password : String
  deriving Repr, DecidableEq

/-- The authentication section of the settings
(`server.settings.authentication`); either token class may be absent. -/
structure AuthSettings where
  resetPasswordToken : Option TokenSettings
  confirmEmailToken : Option TokenSettings
  deriving Repr, DecidableEq

/-- The slice of `server.settings` the user subsystem reads. -/
structure Settings where
  mail : Option MailSettings
  authentication : AuthSettings
  deriving Repr, DecidableEq

/-- A user account document.  `password` stands for the stored credential
material (hashing is delegated to passport-local-mongoose and irrelevant
to the claims); `_created` is the mongoose-times creation stamp (absent on
documents that predate the plugin, hence `Option`); `acl` is the
mongoose-acl map of subject key to capability list. -/
structure UserAccount where
  _id : String
  email : String
  firstName : Option String
  lastName : Option String
  roles : List String
  isConfirmed : Bool
  password : String
  _created : Option Int
  _lastLogin : Option Int
  acl : List (String × List String)
  deriving Repr, DecidableEq

/-- The token payload serialized into a capability string:
`\x7b_id, expiration\x7d` (users.js lines 503-505 and 564-566).  The
expiration is `none` when the invalid `Date` arising from a missing TTL
serialized to JSON `null`. -/
structure TokenPayload where
  _id : String
  expiration : Option Int
  deriving Repr, DecidableEq

/-- `cipher.update(JSON.stringify(payload), 'utf8', 'hex') + cipher.final('hex')`:
the cipher family, indexed by algorithm name and key, from payload to an
opaque ciphertext. -/
def CipherEnc (Tok : Type) : Type := String → String → TokenPayload → Tok

/-- `JSON.parse(decipher.update(tok, 'hex', 'utf8') + decipher.final('utf8'))`:
the matching decryption-and-parse family; `none` models either the
decipher or `JSON.parse` throwing. -/
def CipherDec (Tok : Type) : Type := String → String → Tok → Option TokenPayload

/-- The HTTP-shaped outcome of an orchestrator: `server.result` payload,
`server.error` message and status code, or an uncaught exception. -/
inductive Response (α : Type) where
  | ok : α → Response α
  | err : String → Nat → Response α
  | exn : Response α
  deriving Repr, DecidableEq

/-- One observable collaborator effect of an orchestrator, in execution
order. -/
inductive Effect where
  | findById (id : String)
  | findOne (email : String)
  | registerUser (a : UserAccount)
  | save (a : UserAccount)
  | setPassword (id : String) (pw : String)
  | mailSend (recipient : String) (text : String)
  | logout
  deriving Repr, DecidableEq

/-- The complete result of one orchestrator invocation: response, the
store after the invocation, and the effect trace. -/
structure RunResult (α : Type) where
  response : Response α
  store : List UserAccount
  trace : List Effect
  deriving Repr, DecidableEq

/-- `UserModel.findById`: first document whose `_id` matches. -/
def findById (store : List UserAccount) (id : String) : Option UserAccount :=
  store.find? (fun u => u._id == id)

/-- `UserModel.findOne(\x7bemail\x7d)`: first document whose `email`
matches. -/
def findOne (store : List UserAccount) (email : String) : Option UserAccount :=
  store.find? (fun u => u.email == email)

/-- `doc.save()` on a fetched document: replace the stored document with
the mutated one, addressed by `_id`. -/
def updateById (store : List UserAccount) (a : UserAccount) : List UserAccount :=
  store.map (fun v => if v._id == a._id then a else v)

/-- JavaScript `x ? x : d` over an optional number: `undefined` and `0`
are falsy and yield the default. -/
def jsOr (o : Option Int) (d : Int) : Int :=
  match o with
  | some v => if v == 0 then d else v
  | none => d

/-- `new Date(token.expiration)` as milliseconds: a JSON `null`
expiration coerces to the epoch (`new Date(null)` is time 0). -/
def dateValue (e : Option Int) : Int :=
  match e with
  | some v => v
  | none => 0

/-- `module.exports.confirmEmailEnabled` (users.js lines 537-550): true
exactly when the mail section, the message map, the confirm-email token
settings and the confirm-email template all exist and the template is
enabled. -/
def confirmEmailEnabled (cfg : Settings) : Bool :=
  match cfg.mail with
  | none => false
  | some m =>
    match m.messages, cfg.authentication.confirmEmailToken with
    | some msgs, some _ =>
      match msgs.confirmEmail with
      | some t => t.enabled
      | none => false
    | _, _ => false

/-- `module.exports.resetPasswordEnabled` (users.js lines 477-490): same
shape over the password-reset-request template and reset token settings.
(The source defines this function but never calls it.) -/
def resetPasswordEnabled (cfg : Settings) : Bool :=
  match cfg.mail with
  | none => false
  | some m =>
    match m.messages, cfg.authentication.resetPasswordToken with
    | some msgs, some _ =>
      match msgs.passwordResetRequest with
      | some t => t.enabled
      | none => false
    | _, _ => false

/-- Modelled from the spec: the owner-scoped read filter
(`user.applyReadFilter('owner')`).  Its field list lives in the settings
(`collection.filter`), outside `src/`; per the specification the owner
projection redacts credential material and never mutates the stored
entity, so it is modelled as clearing the credential field of the
in-memory copy. -/
def applyReadFilter (u : UserAccount) : UserAccount :=
  { u with password := "" }

/-- Token construction shared by `sendResetPassword` (users.js lines
496-507) and `sendConfirmEmail` (lines 556-568): expiration is
`now + timeout` minutes; a missing timeout makes the `Date` invalid, which
serializes to JSON `null` (`none`); the payload is serialized and
encrypted under the class's algorithm and key. -/
def mintToken {Tok : Type} (enc : CipherEnc Tok) (ts : TokenSettings)
    (now : Int) (id : String) : Tok :=
  enc ts.algorithm ts.password
    { _id := id, expiration := ts.timeout.map (fun tm => now + tm * 60000) }

/-- `'user:' + this._id`: the mongoose-acl subject key of an account. -/
def userKey (u : UserAccount) : String := "user:" ++ u._id

/-- `doc.setAccess(subject, capabilities)` from mongoose-acl: record the
capability list under the subject key on the entity itself. -/
def setAccess (u : UserAccount) (subject : String) (caps : List String) : UserAccount :=
  { u with acl := u.acl ++ [(subject, caps)] }

/-- The `emailConfirmed` grace-period gate of `login` (users.js lines
133-149): it runs only when confirm-email is enabled and `_created` is
truthy; for an unconfirmed account it permits login while
`moment(_created).add('minutes', timeout) >= moment()`, the timeout
falling back to 1440 when falsy. -/
def emailConfirmedGate (cfg : Settings) (now : Int) (u : UserAccount) : Bool :=
  if confirmEmailEnabled cfg && u._created.isSome then
    if !u.isConfirmed then
      match u._created, cfg.authentication.confirmEmailToken with
      | some created, some ts =>
        decide (created + jsOr ts.timeout 1440 * 60000 ≥ now)
      | _, _ => true
    else true
  else true

/-- `module.exports.login` (users.js lines 131-173), sequenced by the
gate above: on pass, stamp `_lastLogin`, save, owner-filter and return
the account; on fail, `request.logout()` then a 403 Forbidden error. -/
def login (cfg : Settings) (now : Int) (u : UserAccount)
    (store : List UserAccount) : RunResult UserAccount :=
  if emailConfirmedGate cfg now u then
    let u2 := { u with _lastLogin := some now }
    { response := .ok (applyReadFilter u2)
      store := updateById store u2
      trace := [.save u2] }
  else
    { response := .err "Forbidden" 403, store := store, trace := [.logout] }

/-- `module.exports.logout` (users.js lines 175-178). -/
def logoutAction (store : List UserAccount) : RunResult Bool :=
  { response := .ok true, store := store, trace := [.logout] }

/-- `module.exports.resetPassword` (users.js lines 219-280): read the
reset-token class settings, decrypt and parse the submitted token (either
step throwing is an uncaught exception — the source has no try/catch),
reject with 400 when `new Date() >= new Date(token.expiration)`, then
look up the account by the token's `_id`, set the new credential
(passport-local-mongoose `setPassword`, modelled from the spec's
credential sub-contract as replacing the credential material) and save. -/
def resetPassword {Tok : Type} (cfg : Settings) (dec : CipherDec Tok)
    (now : Int) (tok : Tok) (newPassword : String)
    (store : List UserAccount) : RunResult Bool :=
  match cfg.authentication.resetPasswordToken with
  | none => { response := .exn, store := store, trace := [] }
  | some ts =>
    match dec ts.algorithm ts.password tok with
    | none => { response := .exn, store := store, trace := [] }
    | some payload =>
      if now ≥ dateValue payload.expiration then
        { response := .err "Bad Request" 400, store := store, trace := [] }
      else
        match findById store payload._id with
        | none =>
          { response := .err "Not Found." 404, store := store
            trace := [.findById payload._id] }
        | some user =>
          let user2 := { user with password := newPassword }
          { response := .ok true
            store := updateById store user2
            trace := [.findById payload._id, .setPassword user._id newPassword,
                      .save user2] }

/-- `module.exports.confirmEmail` (users.js lines 317-368): same decode
and expiry gate under the confirm-email class settings, then look up the
account, set `isConfirmed := true`, and save. -/
def confirmEmail {Tok : Type} (cfg : Settings) (dec : CipherDec Tok)
    (now : Int) (tok : Tok) (store : List UserAccount) : RunResult Bool :=
  match cfg.authentication.confirmEmailToken with
  | none => { response := .exn, store := store, trace := [] }
  | some ts =>
    match dec ts.algorithm ts.password tok with
    | none => { response := .exn, store := store, trace := [] }
    | some payload =>
      if now ≥ dateValue payload.expiration then
        { response := .err "Bad Request" 400, store := store, trace := [] }
      else
        match findById store payload._id with
        | none =>
          { response := .err "Not Found" 404, store := store
            trace := [.findById payload._id] }
        | some user =>
          let user2 := { user with isConfirmed := true }
          { response := .ok true
            store := updateById store user2
            trace := [.findById payload._id, .save user2] }

/-- The outcome of a mail-sender helper (`sendResetPassword` /
`sendConfirmEmail`): a message handed to `server.mail.send` with the
callback succeeding, the callback invoked with an error string, or an
uncaught exception from reading a missing settings object. -/
inductive SendOutcome where
  | sent (recipient : String) (text : String)
  | cbError (msg : String)
  | exn
  deriving Repr, DecidableEq

/-- The template-substitution chain on the message text (users.js lines
511-513 and 572-574): replace every placeholder occurrence, absent name
fields substituting the empty string; `tokenText` is
`encodeURIComponent(token)`. -/
def formatText (text : String) (user : UserAccount) (tokenText : String) : String :=
  ((text.replace "\x7bfirstName\x7d" (user.firstName.getD "")).replace
      "\x7blastName\x7d" (user.lastName.getD "")).replace
    "\x7btoken\x7d" tokenText

/-- The `to` header (users.js lines 514 and 575):
`(firstName || '') + ' ' + (lastName || '') + ' <' + email + '>'`. -/
def mailTo (user : UserAccount) : String :=
  (user.firstName.getD "") ++ " " ++ (user.lastName.getD "") ++ " <" ++ user.email ++ ">"

/-- `module.exports.sendResetPassword` (users.js lines 492-535).  The
gate is `this.confirmEmailEnabled(server)` — the source checks the
confirm-email flag here, not `resetPasswordEnabled` (which it never
calls); when the gate fails the callback receives
`'Password reset is not enabled.'`.  When the gate passes, the reset
token is minted under the reset-password class settings and substituted
into the `passwordResetRequest` template; reading either of those when
absent throws (the gate does not check them).  `encodeTok` models
`encodeURIComponent` on the hex token string.  The HTML-alternative
attachment loop (lines 517-526) repeats the same substitutions on
attachment bodies and is not modelled. -/
def sendResetPassword {Tok : Type} (cfg : Settings) (enc : CipherEnc Tok)
    (encodeTok : Tok → String) (now : Int) (user : UserAccount) : SendOutcome :=
  if confirmEmailEnabled cfg then
    match cfg.authentication.resetPasswordToken with
    | none => .exn
    | some ts =>
      let tok := mintToken enc ts now user._id
      match cfg.mail with
      | none => .exn
      | some m =>
        match m.messages with
        | none => .exn
        | some msgs =>
          match msgs.passwordResetRequest with
          | none => .exn
          | some t => .sent (mailTo user) (formatText t.text user (encodeTok tok))
  else .cbError "Password reset is not enabled."

/-- `module.exports.sendConfirmEmail` (users.js lines 552-601): gated on
`confirmEmailEnabled`; an already-confirmed account gets the callback
error `'Email already confirmed.'`; otherwise the confirm token is minted
under the confirm-email class settings and substituted into the
`confirmEmail` template.  The attachment loop is not modelled, as in
`sendResetPassword`. -/
def sendConfirmEmail {Tok : Type} (cfg : Settings) (enc : CipherEnc Tok)
    (encodeTok : Tok → String) (now : Int) (user : UserAccount) : SendOutcome :=
  if confirmEmailEnabled cfg then
    if user.isConfirmed != true then
      match cfg.authentication.confirmEmailToken with
      | none => .exn
      | some ts =>
        let tok := mintToken enc ts now user._id
        match cfg.mail with
        | none => .exn
        | some m =>
          match m.messages with
          | none => .exn
          | some msgs =>
            match msgs.confirmEmail with
            | none => .exn
            | some t => .sent (mailTo user) (formatText t.text user (encodeTok tok))
    else .cbError "Email already confirmed."
  else .cbError "Email confirmation is not enabled."

/-- The request body of the Register endpoint (`POST /api/users`). -/
structure RegisterBody where
  email : String
  password : String
  firstName : Option String
  lastName : Option String
  deriving Repr, DecidableEq

/-- `new UserModel(request.body)`: the freshly materialized account
entity.  `_id` is the ObjectId mongoose generates at construction,
`isConfirmed` defaults to false per the schema, `_created` is stamped by
the mongoose-times plugin at first save, no grants yet. -/
def newUser (freshId : String) (now : Int) (body : RegisterBody) : UserAccount :=
  { _id := freshId, email := body.email, firstName := body.firstName
    lastName := body.lastName, roles := [], isConfirmed := false
    password := "", _created := some now, _lastLogin := none, acl := [] }

/-- Modelled from the spec: `UserModel.register(a, password, cb)` of
passport-local-mongoose, the credential sub-contract of the Account Store
collaborator — reject a duplicate username (email), otherwise set the
credential material on the entity and persist it. -/
def registerCredential (store : List UserAccount) (a : UserAccount)
    (pw : String) : Except String (UserAccount × List UserAccount) :=
  if store.any (fun u => u.email == a.email) then
    .error "A user with the given username is already registered"
  else
    let a2 := { a with password := pw }
    .ok (a2, store ++ [a2])

/-- The account entity as materialized by `create` before registration
(users.js lines 181-185): `new UserModel(request.body)` followed by the
owner grant `a.setAccess(a, ['read', 'write', 'delete'])` and the
admin-role grant `a.setAccess('role:admin', ['read', 'write', 'delete'])`. -/
def grantedUser (freshId : String) (now : Int) (body : RegisterBody) : UserAccount :=
  let a := newUser freshId now body
  let a := setAccess a (userKey a) ["read", "write", "delete"]
  setAccess a "role:admin" ["read", "write", "delete"]

/-- `module.exports.create` (users.js lines 180-217): materialize the
account from the body and apply both grants (`grantedUser`), then
delegate to `UserModel.register`; on success owner-filter the persisted
account and, if confirm email is enabled, send the confirmation mail
before responding (a mail callback error becomes a 500; the account
stays persisted). -/
def create {Tok : Type} (cfg : Settings) (enc : CipherEnc Tok)
    (encodeTok : Tok → String) (now : Int) (freshId : String)
    (body : RegisterBody) (store : List UserAccount) : RunResult UserAccount :=
  match registerCredential store (grantedUser freshId now body) body.password with
  | .error e => { response := .err e 500, store := store, trace := [] }
  | .ok (persisted, store2) =>
    let user := applyReadFilter persisted
    if confirmEmailEnabled cfg then
      match sendConfirmEmail cfg enc encodeTok now user with
      | .sent recipient text =>
        { response := .ok user, store := store2
          trace := [.registerUser persisted, .mailSend recipient text] }
      | .cbError e =>
        { response := .err e 500, store := store2
          trace := [.registerUser persisted] }
      | .exn =>
        { response := .exn, store := store2
          trace := [.registerUser persisted] }
    else
      { response := .ok user, store := store2, trace := [.registerUser persisted] }

/-- `module.exports.resetPasswordRequest` (users.js lines 282-315): look
up the account by email (404 when absent), then delegate to
`sendResetPassword`; a callback error becomes a 500, success responds
`true`. -/
def resetPasswordRequest {Tok : Type} (cfg : Settings) (enc : CipherEnc Tok)
    (encodeTok : Tok → String) (now : Int) (email : String)
    (store : List UserAccount) : RunResult Bool :=
  match findOne store email with
  | none =>
    { response := .err "Not Found" 404, store := store, trace := [.findOne email] }
  | some user =>
    match sendResetPassword cfg enc encodeTok now user with
    | .sent recipient text =>
      { response := .ok true, store := store
        trace := [.findOne email, .mailSend recipient text] }
    | .cbError e =>
      { response := .err e 500, store := store, trace := [.findOne email] }
    | .exn =>
      { response := .exn, store := store, trace := [.findOne email] }

/-- `module.exports.confirmEmailRequest` (users.js lines 370-403): same
shape over `sendConfirmEmail`. -/
def confirmEmailRequest {Tok : Type} (cfg : Settings) (enc : CipherEnc Tok)
    (encodeTok : Tok → String) (now : Int) (email : String)
    (store : List UserAccount) : RunResult Bool :=
  match findOne store email with
  | none =>
    { response := .err "Not Found" 404, store := store, trace := [.findOne email] }
  | some user =>
    match sendConfirmEmail cfg enc encodeTok now user with
    | .sent recipient text =>
      { response := .ok true, store := store
        trace := [.findOne email, .mailSend recipient text] }
    | .cbError e =>
      { response := .err e 500, store := store, trace := [.findOne email] }
    | .exn =>
      { response := .exn, store := store, trace := [.findOne email] }

/-- Modelled from the spec: `user.authenticate(password, cb)` of
passport-local-mongoose, the credential re-check of the Account Store
collaborator — succeed when the supplied password matches the stored
credential material, otherwise report the failure through the callback's
error argument. -/
def authenticate (u : UserAccount) (pw : String) : Except String UserAccount :=
  if pw == u.password then .ok u else .error "Incorrect password"

/-- `module.exports.changePassword` (users.js lines 435-475):
re-authenticate the caller with the old password (a failure is surfaced
as a 500 and nothing else runs), then set the new credential and save. -/
def changePassword (u : UserAccount) (oldPassword newPassword : String)
    (store : List UserAccount) : RunResult Bool :=
  match authenticate u oldPassword with
  | .error e => { response := .err e 500, store := store, trace := [] }
  | .ok user =>
    let user2 := { user with password := newPassword }
    { response := .ok true
      store := updateById store user2
      trace := [.setPassword user._id newPassword, .save user2] }

/-- `module.exports.current` (users.js lines 405-412): the owner-filtered
session account, or `undefined` without a session. -/
def currentAccount (u : Option UserAccount) (store : List UserAccount) :
    RunResult (Option UserAccount) :=
  match u with
  | some user => { response := .ok (some (applyReadFilter user)), store := store, trace := [] }
  | none => { response := .ok none, store := store, trace := [] }

/-- `module.exports.currentIsInRole` (users.js lines 414-433): false
without a session, otherwise a linear scan of `roles` for the named
role. -/
def currentIsInRole (u : Option UserAccount) (role : String) : Bool :=
  match u with
  | none => false
  | some user => user.roles.contains role

/-- One invocation of the user subsystem, with the per-request inputs it
needs (the session user is carried by id and re-fetched from the store,
as passport's `deserializeUser` does). -/
inductive Op (Tok : Type) where
  | opLogin (now : Int) (userId : String)
  | opLogout
  | opCreate (now : Int) (freshId : String) (body : RegisterBody)
  | opResetPassword (now : Int) (tok : Tok) (newPassword : String)
  | opResetPasswordRequest (now : Int) (email : String)
  | opConfirmEmail (now : Int) (tok : Tok)
  | opConfirmEmailRequest (now : Int) (email : String)
  | opChangePassword (userId : String) (oldPw : String) (newPw : String)
  | opCurrent (userId : Option String)
  | opCurrentIsInRole (userId : Option String) (role : String)

/-- Whether an operation is the ConfirmEmail orchestrator. -/
def Op.isConfirmEmailOp {Tok : Type} : Op Tok → Bool
  | .opConfirmEmail _ _ => true
  | _ => false

/-- The effect of one operation on the persistent store (operations whose
session user no longer resolves leave the store untouched). -/
def stepStore {Tok : Type} (cfg : Settings) (enc : CipherEnc Tok)
    (dec : CipherDec Tok) (encodeTok : Tok → String)
    (op : Op Tok) (store : List UserAccount) : List UserAccount :=
  match op with
  | .opLogin now uid =>
    match findById store uid with
    | some u => (login cfg now u store).store
    | none => store
  | .opLogout => (logoutAction store).store
  | .opCreate now freshId body => (create cfg enc encodeTok now freshId body store).store
  | .opResetPassword now tok pw => (resetPassword cfg dec now tok pw store).store
  | .opResetPasswordRequest now email =>
    (resetPasswordRequest cfg enc encodeTok now email store).store
  | .opConfirmEmail now tok => (confirmEmail cfg dec now tok store).store
  | .opConfirmEmailRequest now email =>
    (confirmEmailRequest cfg enc encodeTok now email store).store
  | .opChangePassword uid oldPw newPw =>
    match findById store uid with
    | some u => (changePassword u oldPw newPw store).store
    | none => store
  | .opCurrent uid => (currentAccount (uid.bind (findById store)) store).store
  | .opCurrentIsInRole _ _ => store

/-- A sequence of operations, run left to right. -/
def runOps {Tok : Type} (cfg : Settings) (enc : CipherEnc Tok)
    (dec : CipherDec Tok) (encodeTok : Tok → String)
    (ops : List (Op Tok)) (store : List UserAccount) : List UserAccount :=
  ops.foldl (fun s op => stepStore cfg enc dec encodeTok op s) store

/-! ## Store lemmas -/

/-- The account `findById` returns carries the id it was looked up by. -/
theorem findById_id_eq {store : List UserAccount} {id : String} {u : UserAccount}
    (h : findById store id = some u) : u._id = id := by
  have hp := List.find?_some h
  simpa using hp

/-- Saving a document rewrites exactly the store entries sharing its
`_id`; lookups by any id see either the saved document or the entry they
saw before. -/
theorem findById_updateById (store : List UserAccount) (a : UserAccount)
    (id : String) :
    findById (updateById store a) id =
      (findById store id).map (fun u => if u._id == a._id then a else u) := by
  unfold findById updateById
  rw [List.find?_map]
  have hp : ((fun u : UserAccount => u._id == id) ∘
      (fun v : UserAccount => if v._id == a._id then a else v)) =
      (fun u : UserAccount => u._id == id) := by
    funext v
    by_cases h : v._id = a._id
    · simp [Function.comp, h]
    · simp [Function.comp, h]
  rw [hp]

/-- A lookup that succeeds still succeeds, with the same account, after
new documents are appended at the end of the store. -/
theorem findById_append {store l : List UserAccount} {id : String}
    {u : UserAccount} (h : findById store id = some u) :
    findById (store ++ l) id = some u := by
  unfold findById at *
  induction store with
  | nil => simp [List.find?] at h
  | cons x xs ih =>
    simp only [List.cons_append, List.find?_cons] at h ⊢
    by_cases hx : (x._id == id) = true
    · simpa [hx] using h
    · simp only [hx, Bool.false_eq_true, if_false] at h ⊢
      exact ih h

/-! ## Concrete fixtures used by witnesses and counterexamples -/

/-- A sample stored account. -/
def sampleUser : UserAccount :=
  { _id := "u1", email := "a@b.com", firstName := some "Ada", lastName := none
    roles := ["admin"], isConfirmed := false, password := "pw"
    _created := some 0, _lastLogin := none, acl := [] }

/-- Sample reset-password token-class settings. -/
def resetTs : TokenSettings :=
  { timeout := some 10, algorithm := "aes256", password := "rkey" }

/-- Sample confirm-email token-class settings with a one-minute grace
timeout. -/
def confirmTs : TokenSettings :=
  { timeout := some 1, algorithm := "aes256", password := "ckey" }

/-- An enabled confirm-email template. -/
def confirmTpl : MessageTemplate :=
  { enabled := true, text := "Hello \x7bfirstName\x7d: \x7btoken\x7d" }

/-- An enabled password-reset-request template. -/
def resetTpl : MessageTemplate :=
  { enabled := true, text := "Reset: \x7btoken\x7d" }

/-- Message templates with only the password-reset-request template. -/
def resetOnlyMessages : Messages :=
  { passwordResetRequest := some resetTpl, confirmEmail := none }

/-- Settings with both token classes configured but no confirm-email
template, so `confirmEmailEnabled` is false while `resetPasswordEnabled`
is true. -/
def cfgResetOnly : Settings :=
  { mail := some { messages := some resetOnlyMessages }
    authentication :=
      { resetPasswordToken := some resetTs, confirmEmailToken := some confirmTs } }

/-- Message templates with both templates enabled. -/
def bothMessages : Messages :=
  { passwordResetRequest := some resetTpl, confirmEmail := some confirmTpl }

/-- Settings with confirm email fully enabled. -/
def cfgConfirm : Settings :=
  { mail := some { messages := some bothMessages }
    authentication :=
      { resetPasswordToken := some resetTs, confirmEmailToken := some confirmTs } }

/-! ## Claim theorems -/

/-- Claim C1: minting a token (payload `\x7b_id, expiration := now + ttl
minutes\x7d`, serialized, encrypted under the reset class's algorithm and
key, hex-encoded) and verifying it with the same algorithm and key before
the ttl elapses recovers the original subject id, and the ResetPassword
orchestrator looks up exactly that account (and proceeds to update it). -/
theorem token_roundtrip_recovers_subject {Tok : Type} (cfg : Settings)
    (ts : TokenSettings) (enc : CipherEnc Tok) (dec : CipherDec Tok)
    (ttl t0 t1 : Int) (uid newPw : String) (store : List UserAccount)
    (u : UserAccount)
    (hts : cfg.authentication.resetPasswordToken = some ts)
    (hrt : ∀ p, dec ts.algorithm ts.password (enc ts.algorithm ts.password p) = some p)
    (httl : ts.timeout = some ttl) (hpos : 0 < ttl)
    (hbefore : t1 < t0 + ttl * 60000)
    (hfind : findById store uid = some u) :
    resetPassword cfg dec t1 (mintToken enc ts t0 uid) newPw store =
      { response := .ok true
        store := updateById store ({ u with password := newPw })
        trace := [.findById uid, .setPassword u._id newPw,
                  .save ({ u with password := newPw })] } := by
  unfold resetPassword mintToken
  rw [hts]
  simp only [hrt, httl, Option.map_some']
  rw [if_neg (by simp only [dateValue]; omega)]
  simp [hfind]

/-- Witness for C1 at a concrete instance: an identity cipher over the
payload type, a ten-minute ttl, minting at time 0 and verifying at
five minutes. -/
theorem token_roundtrip_recovers_subject_witness :
    resetPassword cfgConfirm (fun _ _ p => some p) 300000
        (mintToken (fun _ _ p => p) resetTs 0 "u1") "new" [sampleUser] =
      { response := .ok true
        store := updateById [sampleUser] ({ sampleUser with password := "new" })
        trace := [.findById "u1", .setPassword sampleUser._id "new",
                  .save ({ sampleUser with password := "new" })] } :=
  @token_roundtrip_recovers_subject TokenPayload cfgConfirm resetTs
    (fun _ _ p => p) (fun _ _ p => some p) 10 0 300000 "u1" "new" [sampleUser]
    sampleUser (by decide) (fun _ => rfl) (by decide) (by decide) (by decide) (by decide)

/-- Claim C2 as stated is false on the source: `resetPassword` has no
try/catch, so a token whose decryption or JSON parse fails raises an
uncaught exception instead of answering 400 Bad Request.  Concretely,
with a decoder that fails on the input `"deadbeef"`, the orchestrator's
outcome is the exception, not the 400 error (though indeed no lookup or
mutation happens). -/
theorem malformed_token_counterexample :
    resetPassword cfgConfirm (fun _ _ _ => (none : Option TokenPayload)) 0
        "deadbeef" "pw" [sampleUser] =
      { response := .exn, store := [sampleUser], trace := [] } ∧
    (Response.exn : Response Bool) ≠ Response.err "Bad Request" 400 := by
  exact ⟨by decide, by decide⟩

/-- Claim C2 amended: for every token whose decryption or JSON
deserialization fails, the ResetPassword and ConfirmEmail orchestrators
propagate the failure as an uncaught exception — no 400 response is
produced — and perform no account lookup or mutation (empty effect
trace, store unchanged). -/
theorem malformed_token_no_lookup {Tok : Type} (cfg : Settings)
    (ts1 ts2 : TokenSettings) (dec : CipherDec Tok) (tok : Tok)
    (pw : String) (now1 now2 : Int) (store : List UserAccount)
    (h1 : cfg.authentication.resetPasswordToken = some ts1)
    (h2 : cfg.authentication.confirmEmailToken = some ts2)
    (hd1 : dec ts1.algorithm ts1.password tok = none)
    (hd2 : dec ts2.algorithm ts2.password tok = none) :
    resetPassword cfg dec now1 tok pw store =
      { response := .exn, store := store, trace := [] } ∧
    confirmEmail cfg dec now2 tok store =
      { response := .exn, store := store, trace := [] } := by
  constructor
  · unfold resetPassword
    rw [h1]
    simp [hd1]
  · unfold confirmEmail
    rw [h2]
    simp [hd2]

/-- Witness for the amended C2 at a concrete failing decoder. -/
theorem malformed_token_no_lookup_witness :
    resetPassword cfgConfirm (fun _ _ _ => (none : Option TokenPayload)) 1
        "zz" "pw" [sampleUser] =
      { response := .exn, store := [sampleUser], trace := [] } ∧
    confirmEmail cfgConfirm (fun _ _ _ => (none : Option TokenPayload)) 2
        "zz" [sampleUser] =
      { response := .exn, store := [sampleUser], trace := [] } :=
  malformed_token_no_lookup cfgConfirm resetTs confirmTs
    (fun _ _ _ => none) "zz" "pw" 1 2 [sampleUser] (by decide) (by decide) rfl rfl

/-- Claim C3 as stated is false on the source at the grace boundary: the
gate is `timeoutDate >= currentDate`, so at `now = _created +
grace_period` exactly (here `_created = 0`, one-minute grace, `now =
60000` ms) login still succeeds, where the claim (`now < T + grace`)
requires a 403. -/
theorem grace_boundary_counterexample :
    login cfgConfirm 60000 sampleUser [sampleUser] =
      { response := .ok (applyReadFilter ({ sampleUser with _lastLogin := some 60000 }))
        store := updateById [sampleUser] ({ sampleUser with _lastLogin := some 60000 })
        trace := [.save ({ sampleUser with _lastLogin := some 60000 })] } ∧
    (login cfgConfirm 60000 sampleUser [sampleUser]).response ≠
      Response.err "Forbidden" 403 := by
  constructor
  · decide
  · decide

/-- The gate value for an unconfirmed account with a creation stamp under
an enabled confirm-email configuration. -/
theorem emailConfirmedGate_eq (cfg : Settings) (ts : TokenSettings)
    (u : UserAccount) (now created : Int)
    (hen : confirmEmailEnabled cfg = true)
    (hts : cfg.authentication.confirmEmailToken = some ts)
    (hunc : u.isConfirmed = false)
    (hcr : u._created = some created) :
    emailConfirmedGate cfg now u =
      decide (created + jsOr ts.timeout 1440 * 60000 ≥ now) := by
  unfold emailConfirmedGate
  rw [hcr, hts]
  simp [hen, hunc]

/-- Claim C3 amended: for an unconfirmed account with `_created = T`,
when confirm email is enabled, login is permitted while `now ≤ T + grace`
(grace being the confirm-email token timeout, with 1440 substituted when
it is unset or configured as 0, since the source tests JavaScript
truthiness); once `now > T + grace`, login fails 403 Forbidden and the
session is logged out before the response. -/
theorem grace_period_gate (cfg : Settings) (ts : TokenSettings)
    (u : UserAccount) (store : List UserAccount) (now created : Int)
    (hen : confirmEmailEnabled cfg = true)
    (hts : cfg.authentication.confirmEmailToken = some ts)
    (hunc : u.isConfirmed = false)
    (hcr : u._created = some created) :
    (created + jsOr ts.timeout 1440 * 60000 ≥ now →
      login cfg now u store =
        { response := .ok (applyReadFilter ({ u with _lastLogin := some now }))
          store := updateById store ({ u with _lastLogin := some now })
          trace := [.save ({ u with _lastLogin := some now })] }) ∧
    (created + jsOr ts.timeout 1440 * 60000 < now →
      login cfg now u store =
        { response := .err "Forbidden" 403, store := store, trace := [.logout] }) := by
  constructor
  · intro hle
    unfold login
    rw [emailConfirmedGate_eq cfg ts u now created hen hts hunc hcr,
      if_pos (decide_eq_true hle)]
  · intro hlt
    unfold login
    rw [emailConfirmedGate_eq cfg ts u now created hen hts hunc hcr,
      decide_eq_false (by omega), if_neg Bool.false_ne_true]

/-- Witness for the amended C3: with a one-minute grace period and
`_created = 0`, login succeeds at `now = 59999` and fails 403 at
`now = 60001`. -/
theorem grace_period_gate_witness :
    login cfgConfirm 59999 sampleUser [sampleUser] =
      { response := .ok (applyReadFilter ({ sampleUser with _lastLogin := some 59999 }))
        store := updateById [sampleUser] ({ sampleUser with _lastLogin := some 59999 })
        trace := [.save ({ sampleUser with _lastLogin := some 59999 })] } ∧
    login cfgConfirm 60001 sampleUser [sampleUser] =
      { response := .err "Forbidden" 403, store := [sampleUser], trace := [.logout] } :=
  ⟨(grace_period_gate cfgConfirm confirmTs sampleUser [sampleUser] 59999 0
      (by decide) (by decide) (by decide) (by decide)).1 (by decide),
   (grace_period_gate cfgConfirm confirmTs sampleUser [sampleUser] 60001 0
      (by decide) (by decide) (by decide) (by decide)).2 (by decide)⟩

/-- Claim C6: a ChangePassword invocation whose old password does not
match the stored credential surfaces the re-authentication failure as a
500-class error and leaves the stored credential unchanged — neither
`setPassword` nor `save` is reached. -/
theorem changePassword_wrong_old_password (u : UserAccount)
    (oldPw newPw : String) (store : List UserAccount)
    (h : oldPw ≠ u.password) :
    changePassword u oldPw newPw store =
      { response := .err "Incorrect password" 500, store := store, trace := [] } := by
  unfold changePassword authenticate
  simp [h]

/-- Witness for C6 at a concrete wrong password. -/
theorem changePassword_wrong_old_password_witness :
    changePassword sampleUser "wrong" "new" [sampleUser] =
      { response := .err "Incorrect password" 500, store := [sampleUser]
        trace := [] } :=
  changePassword_wrong_old_password sampleUser "wrong" "new" [sampleUser]
    (by decide)

/-- Claim C10: when the authenticated account has no `_created`
timestamp, the grace-period gate is skipped entirely — login succeeds
regardless of confirmation state, elapsed time and configuration,
stamping `_lastLogin` and returning the owner-filtered account. -/
theorem login_without_created_bypasses_gate (cfg : Settings) (now : Int)
    (u : UserAccount) (store : List UserAccount)
    (h : u._created = none) :
    login cfg now u store =
      { response := .ok (applyReadFilter ({ u with _lastLogin := some now }))
        store := updateById store ({ u with _lastLogin := some now })
        trace := [.save ({ u with _lastLogin := some now })] } := by
  unfold login emailConfirmedGate
  simp [h]

/-- Witness for C10: an unconfirmed account without `_created`, confirm
email enabled, at an arbitrarily late time. -/
theorem login_without_created_bypasses_gate_witness :
    login cfgConfirm 999999999999 { sampleUser with _created := none } [] =
      { response := .ok (applyReadFilter
          { sampleUser with _created := none, _lastLogin := some 999999999999 })
        store := updateById [] ({ sampleUser with _created := none, _lastLogin := some 999999999999 })
        trace := [.save ({ sampleUser with _created := none, _lastLogin := some 999999999999 })] } :=
  login_without_created_bypasses_gate cfgConfirm 999999999999
    ({ sampleUser with _created := none }) [] (by decide)

/-- Claim C4 is refuted by the source, which contradicts its own error
message: `sendResetPassword` gates on `confirmEmailEnabled` (users.js
line 494) — its own `resetPasswordEnabled` function is never called — so
with the password-reset-request template configured and enabled and the
reset token class configured (`resetPasswordEnabled = true`), but the
confirm-email template absent, a ResetPasswordRequest for an existing
account answers 500 `'Password reset is not enabled.'` and sends no
notification, instead of minting and mailing the reset token. -/
theorem resetPasswordRequest_gated_on_confirm_flag :
    resetPasswordEnabled cfgResetOnly = true ∧
    confirmEmailEnabled cfgResetOnly = false ∧
    resetPasswordRequest cfgResetOnly (fun _ _ _ => "tok") (fun s => s) 0
        "a@b.com" [sampleUser] =
      { response := .err "Password reset is not enabled." 500
        store := [sampleUser]
        trace := [.findOne "a@b.com"] } :=
  ⟨by decide, by decide, by decide⟩

/-- Claim C5: for every successfully decoded token, verification fails
exactly when the decoded expiration is not strictly in the future: when
`expiration ≤ now` both the ResetPassword and ConfirmEmail orchestrators
answer 400 Bad Request with the store untouched (in particular
`isConfirmed` unchanged) and no lookup performed; when `expiration > now`
they proceed to the account lookup by the token's subject id. -/
theorem expiry_check_exact :
    (∀ (Tok : Type) (cfg : Settings) (ts : TokenSettings) (dec : CipherDec Tok)
        (now : Int) (tok : Tok) (pw : String) (store : List UserAccount)
        (payload : TokenPayload),
        cfg.authentication.resetPasswordToken = some ts →
        dec ts.algorithm ts.password tok = some payload →
        (dateValue payload.expiration ≤ now →
          resetPassword cfg dec now tok pw store =
            { response := .err "Bad Request" 400, store := store, trace := [] }) ∧
        (now < dateValue payload.expiration →
          (resetPassword cfg dec now tok pw store).trace.head? =
            some (.findById payload._id))) ∧
    (∀ (Tok : Type) (cfg : Settings) (ts : TokenSettings) (dec : CipherDec Tok)
        (now : Int) (tok : Tok) (store : List UserAccount)
        (payload : TokenPayload),
        cfg.authentication.confirmEmailToken = some ts →
        dec ts.algorithm ts.password tok = some payload →
        (dateValue payload.expiration ≤ now →
          confirmEmail cfg dec now tok store =
            { response := .err "Bad Request" 400, store := store, trace := [] }) ∧
        (now < dateValue payload.expiration →
          (confirmEmail cfg dec now tok store).trace.head? =
            some (.findById payload._id))) := by
  constructor
  · intro Tok cfg ts dec now tok pw store payload hts hdec
    constructor
    · intro hexp
      unfold resetPassword
      rw [hts]
      simp only [hdec]
      rw [if_pos (by omega)]
    · intro hfresh
      unfold resetPassword
      rw [hts]
      simp only [hdec]
      rw [if_neg (by omega)]
      cases hf : findById store payload._id <;> simp [hf]
  · intro Tok cfg ts dec now tok store payload hts hdec
    constructor
    · intro hexp
      unfold confirmEmail
      rw [hts]
      simp only [hdec]
      rw [if_pos (by omega)]
    · intro hfresh
      unfold confirmEmail
      rw [hts]
      simp only [hdec]
      rw [if_neg (by omega)]
      cases hf : findById store payload._id <;> simp [hf]

/-- Witness for C5: an expired reset token (expiration 5, verified at 5)
answers 400 and leaves the store alone; a still-valid confirm token
(verified at 3) proceeds to the lookup of its subject. -/
theorem expiry_check_exact_witness :
    resetPassword cfgConfirm
        (fun _ _ _ => some ({ _id := "u1", expiration := some 5 } : TokenPayload))
        5 "t" "pw" [sampleUser] =
      { response := .err "Bad Request" 400, store := [sampleUser], trace := [] } ∧
    (confirmEmail cfgConfirm
        (fun _ _ _ => some ({ _id := "u1", expiration := some 5 } : TokenPayload))
        3 "t" [sampleUser]).trace.head? = some (.findById "u1") :=
  ⟨(expiry_check_exact.1 String cfgConfirm resetTs
      (fun _ _ _ => some ({ _id := "u1", expiration := some 5 } : TokenPayload))
      5 "t" "pw" [sampleUser] ({ _id := "u1", expiration := some 5 })
      (by decide) rfl).1 (by decide),
   (expiry_check_exact.2 String cfgConfirm confirmTs
      (fun _ _ _ => some ({ _id := "u1", expiration := some 5 } : TokenPayload))
      3 "t" [sampleUser] ({ _id := "u1", expiration := some 5 })
      (by decide) rfl).2 (by decide)⟩

/-- Claim C7: a token class whose TTL is missing from configuration fails
closed — minting substitutes no default (the payload's expiration is the
JSON `null` of the invalid date, not `now + 1440` or any other constant),
and since `new Date(null)` is the epoch, the expiry check rejects such a
token at every verification time from the epoch on, in both the
ResetPassword and the ConfirmEmail orchestrators, before any account
lookup. -/
theorem missing_ttl_fails_closed (Tok : Type) (cfg : Settings)
    (tsR tsC : TokenSettings) (enc : CipherEnc Tok) (dec : CipherDec Tok)
    (t0R t0C now : Int) (uid pw : String) (store : List UserAccount)
    (htsR : cfg.authentication.resetPasswordToken = some tsR)
    (htsC : cfg.authentication.confirmEmailToken = some tsC)
    (htoR : tsR.timeout = none) (htoC : tsC.timeout = none)
    (hrtR : ∀ p, dec tsR.algorithm tsR.password (enc tsR.algorithm tsR.password p) = some p)
    (hrtC : ∀ p, dec tsC.algorithm tsC.password (enc tsC.algorithm tsC.password p) = some p)
    (hnow : 0 ≤ now) :
    mintToken enc tsR t0R uid =
      enc tsR.algorithm tsR.password ({ _id := uid, expiration := none }) ∧
    resetPassword cfg dec now (mintToken enc tsR t0R uid) pw store =
      { response := .err "Bad Request" 400, store := store, trace := [] } ∧
    confirmEmail cfg dec now (mintToken enc tsC t0C uid) store =
      { response := .err "Bad Request" 400, store := store, trace := [] } := by
  refine ⟨by simp [mintToken, htoR], ?_, ?_⟩
  · unfold resetPassword
    rw [htsR]
    simp only [mintToken, htoR, Option.map_none', hrtR]
    rw [if_pos (by simp only [dateValue]; omega)]
  · unfold confirmEmail
    rw [htsC]
    simp only [mintToken, htoC, Option.map_none', hrtC]
    rw [if_pos (by simp only [dateValue]; omega)]

/-- A reset token class with no configured TTL. -/
def noTtlTs : TokenSettings :=
  { timeout := none, algorithm := "aes256", password := "nkey" }

/-- Settings whose two token classes both lack a TTL. -/
def cfgNoTtl : Settings :=
  { mail := some { messages := some bothMessages }
    authentication :=
      { resetPasswordToken := some noTtlTs, confirmEmailToken := some noTtlTs } }

/-- Witness for C7 with the identity payload codec, minting at time 7 and
verifying at time 0 (the epoch). -/
theorem missing_ttl_fails_closed_witness :
    mintToken (fun _ _ p => p) noTtlTs 7 "u1" =
      (fun _ _ p => p : CipherEnc TokenPayload) noTtlTs.algorithm noTtlTs.password
        ({ _id := "u1", expiration := none }) ∧
    resetPassword cfgNoTtl (fun _ _ p => some p) 0
        (mintToken (fun _ _ p => p) noTtlTs 7 "u1") "pw" [sampleUser] =
      { response := .err "Bad Request" 400, store := [sampleUser], trace := [] } ∧
    confirmEmail cfgNoTtl (fun _ _ p => some p) 0
        (mintToken (fun _ _ p => p) noTtlTs 9 "u1") [sampleUser] =
      { response := .err "Bad Request" 400, store := [sampleUser], trace := [] } :=
  missing_ttl_fails_closed TokenPayload cfgNoTtl noTtlTs noTtlTs
    (fun _ _ p => p) (fun _ _ p => some p) 7 9 0 "u1" "pw" [sampleUser]
    (by decide) (by decide) (by decide) (by decide)
    (fun _ => rfl) (fun _ => rfl) (by decide)

/-- The full capability set granted at account creation. -/
def fullCaps : List String := ["read", "write", "delete"]

/-- Both creation-time grants — (owning account, full set) and
(role:admin, full set) — are recorded on an account. -/
def hasBothGrants (a : UserAccount) : Prop :=
  (userKey a, fullCaps) ∈ a.acl ∧ ("role:admin", fullCaps) ∈ a.acl

/-- The entity `create` hands to the credential store carries both
grants. -/
theorem grantedUser_hasBothGrants (freshId : String) (now : Int)
    (body : RegisterBody) : hasBothGrants (grantedUser freshId now body) := by
  simp [grantedUser, newUser, setAccess, userKey, hasBothGrants, fullCaps]

/-- A successful registration persists exactly the granted entity with
the credential set, appended to the store. -/
theorem registerCredential_ok {store : List UserAccount} {a p : UserAccount}
    {pw : String} {st2 : List UserAccount}
    (h : registerCredential store a pw = .ok (p, st2)) :
    p = { a with password := pw } ∧ st2 = store ++ [p] := by
  unfold registerCredential at h
  split at h
  · exact absurd h (by simp)
  · rw [Except.ok.injEq, Prod.mk.injEq] at h
    exact ⟨h.1.symm, by rw [← h.2, h.1]⟩

/-- Claim C8: in Register, both the owner grant and the admin-role grant
are applied to the new account entity before it is persisted: every
persisting effect (`registerUser` or `save`) of the orchestrator carries
an entity with both grants, and when Register succeeds the response
entity and the single appended store entry both carry both grants — so no
persisted intermediate state lacks either grant. -/
theorem register_grant_atomicity {Tok : Type} (cfg : Settings)
    (enc : CipherEnc Tok) (encodeTok : Tok → String) (now : Int)
    (freshId : String) (body : RegisterBody) (store : List UserAccount) :
    (∀ a, Effect.registerUser a ∈ (create cfg enc encodeTok now freshId body store).trace →
        hasBothGrants a) ∧
    (∀ a, Effect.save a ∈ (create cfg enc encodeTok now freshId body store).trace →
        hasBothGrants a) ∧
    (∀ u, (create cfg enc encodeTok now freshId body store).response = .ok u →
        hasBothGrants u ∧
        ∃ p, (create cfg enc encodeTok now freshId body store).store = store ++ [p] ∧
          hasBothGrants p) := by
  have hbase := grantedUser_hasBothGrants freshId now body
  cases hreg : registerCredential store (grantedUser freshId now body) body.password with
  | error e =>
    unfold create
    rw [hreg]
    refine ⟨by simp, by simp, by simp⟩
  | ok pr =>
    obtain ⟨p, st2⟩ := pr
    obtain ⟨hp, hst⟩ := registerCredential_ok hreg
    have hpg : hasBothGrants p := by
      rw [hp]
      simpa [hasBothGrants, userKey] using hbase
    have hfg : hasBothGrants (applyReadFilter p) := by
      simpa [hasBothGrants, applyReadFilter, userKey] using hpg
    unfold create
    rw [hreg]
    dsimp only
    by_cases hce : confirmEmailEnabled cfg = true
    · rw [if_pos hce]
      cases hsend : sendConfirmEmail cfg enc encodeTok now (applyReadFilter p) with
      | sent recipient text =>
        refine ⟨?_, by simp, ?_⟩
        · intro a ha
          simp only [List.mem_cons, List.not_mem_nil, or_false] at ha
          rcases ha with h1 | h1
          · rw [Effect.registerUser.injEq] at h1
            exact h1 ▸ hpg
          · exact absurd h1 (by simp)
        · intro u hu
          rw [Response.ok.injEq] at hu
          exact ⟨hu ▸ hfg, p, hst, hpg⟩
      | cbError e =>
        refine ⟨?_, by simp, by simp⟩
        intro a ha
        simp only [List.mem_cons, List.not_mem_nil, or_false,
          Effect.registerUser.injEq] at ha
        exact ha ▸ hpg
      | exn =>
        refine ⟨?_, by simp, by simp⟩
        intro a ha
        simp only [List.mem_cons, List.not_mem_nil, or_false,
          Effect.registerUser.injEq] at ha
        exact ha ▸ hpg
    · rw [if_neg hce]
      refine ⟨?_, by simp, ?_⟩
      · intro a ha
        simp only [List.mem_cons, List.not_mem_nil, or_false,
          Effect.registerUser.injEq] at ha
        exact ha ▸ hpg
      · intro u hu
        rw [Response.ok.injEq] at hu
        exact ⟨hu ▸ hfg, p, hst, hpg⟩

/-- A concrete registration body. -/
def regBody : RegisterBody :=
  { email := "x@y.com", password := "pw", firstName := none, lastName := none }

/-- The entity that concrete registration persists. -/
def regUser : UserAccount := { grantedUser "u9" 3 regBody with password := "pw" }

/-- Witness for C8 at a concrete registration with confirm email
enabled: the persisted entity of the register effect carries both
grants. -/
theorem register_grant_atomicity_witness : hasBothGrants regUser :=
  (register_grant_atomicity cfgConfirm (fun _ _ _ => "t") (fun s => s) 3 "u9"
    regBody [sampleUser]).1 regUser (by decide)

/-! ## The `isConfirmed` state machine over operation sequences -/

/-- Tracking a lookup across a save: the observed account is either the
one observed before, or the saved document when the saved document came
from a lookup under the same id. -/
theorem flag_after_update {store : List UserAccount} {id uid : String}
    {u w : UserAccount} (a : UserAccount) (h : findById store id = some u)
    (hw : findById store uid = some w) (haid : a._id = w._id) :
    ∃ v, findById (updateById store a) id = some v ∧
      (v = u ∨ (v = a ∧ u = w)) := by
  rw [findById_updateById, h, Option.map_some']
  by_cases hc : u._id = a._id
  · have h1 : u._id = id := findById_id_eq h
    have h2 : w._id = uid := findById_id_eq hw
    have hid : id = uid := by rw [← h1, hc, haid, h2]
    have huw : u = w := by
      rw [hid] at h
      exact Option.some.inj (h.symm.trans hw)
    exact ⟨a, by simp [show (u._id == a._id) = true by simpa using hc],
      Or.inr ⟨rfl, huw⟩⟩
  · exact ⟨u, by simp [show (u._id == a._id) = false by simpa using hc],
      Or.inl rfl⟩

/-- The store after `login`: unchanged, or the session account saved with
a fresh `_lastLogin`. -/
theorem login_store (cfg : Settings) (now : Int) (u : UserAccount)
    (store : List UserAccount) :
    (login cfg now u store).store = store ∨
    (login cfg now u store).store =
      updateById store ({ u with _lastLogin := some now }) := by
  unfold login
  by_cases hg : emailConfirmedGate cfg now u = true
  · rw [if_pos hg]; right; rfl
  · rw [if_neg hg]; left; rfl

/-- The store after `resetPassword`: unchanged, or a looked-up account
saved with a replaced credential. -/
theorem resetPassword_store {Tok : Type} (cfg : Settings) (dec : CipherDec Tok)
    (now : Int) (tok : Tok) (pw : String) (store : List UserAccount) :
    (resetPassword cfg dec now tok pw store).store = store ∨
    ∃ pid w, findById store pid = some w ∧
      (resetPassword cfg dec now tok pw store).store =
        updateById store ({ w with password := pw }) := by
  unfold resetPassword
  cases hts : cfg.authentication.resetPasswordToken with
  | none => left; rfl
  | some ts =>
    dsimp only
    cases hdec : dec ts.algorithm ts.password tok with
    | none => left; rfl
    | some payload =>
      dsimp only
      by_cases hexp : now ≥ dateValue payload.expiration
      · left; rw [if_pos hexp]
      · rw [if_neg hexp]
        cases hf : findById store payload._id with
        | none => left; rfl
        | some w => right; exact ⟨payload._id, w, hf, rfl⟩

/-- The store after `confirmEmail`: unchanged, or a looked-up account
saved with `isConfirmed := true`. -/
theorem confirmEmail_store {Tok : Type} (cfg : Settings) (dec : CipherDec Tok)
    (now : Int) (tok : Tok) (store : List UserAccount) :
    (confirmEmail cfg dec now tok store).store = store ∨
    ∃ pid w, findById store pid = some w ∧
      (confirmEmail cfg dec now tok store).store =
        updateById store ({ w with isConfirmed := true }) := by
  unfold confirmEmail
  cases hts : cfg.authentication.confirmEmailToken with
  | none => left; rfl
  | some ts =>
    dsimp only
    cases hdec : dec ts.algorithm ts.password tok with
    | none => left; rfl
    | some payload =>
      dsimp only
      by_cases hexp : now ≥ dateValue payload.expiration
      · left; rw [if_pos hexp]
      · rw [if_neg hexp]
        cases hf : findById store payload._id with
        | none => left; rfl
        | some w => right; exact ⟨payload._id, w, hf, rfl⟩

/-- The store after `create`: unchanged, or one appended document. -/
theorem create_store {Tok : Type} (cfg : Settings) (enc : CipherEnc Tok)
    (encodeTok : Tok → String) (now : Int) (freshId : String)
    (body : RegisterBody) (store : List UserAccount) :
    (create cfg enc encodeTok now freshId body store).store = store ∨
    ∃ p, (create cfg enc encodeTok now freshId body store).store = store ++ [p] := by
  unfold create
  cases hreg : registerCredential store (grantedUser freshId now body) body.password with
  | error e => left; rfl
  | ok pr =>
    obtain ⟨p, st2⟩ := pr
    obtain ⟨hp, hst⟩ := registerCredential_ok hreg
    right
    refine ⟨p, ?_⟩
    dsimp only
    rw [← hst]
    by_cases hce : confirmEmailEnabled cfg = true
    · rw [if_pos hce]
      cases sendConfirmEmail cfg enc encodeTok now (applyReadFilter p) <;> rfl
    · rw [if_neg hce]

/-- The store after `changePassword`: unchanged, or the caller's account
saved with a replaced credential. -/
theorem changePassword_store (u : UserAccount) (oldPw newPw : String)
    (store : List UserAccount) :
    (changePassword u oldPw newPw store).store = store ∨
    (changePassword u oldPw newPw store).store =
      updateById store ({ u with password := newPw }) := by
  unfold changePassword authenticate
  by_cases hpw : (oldPw == u.password) = true
  · right; rw [if_pos hpw]
  · left; rw [if_neg hpw]

/-- `resetPasswordRequest` never mutates the store. -/
theorem resetPasswordRequest_store {Tok : Type} (cfg : Settings)
    (enc : CipherEnc Tok) (encodeTok : Tok → String) (now : Int)
    (email : String) (store : List UserAccount) :
    (resetPasswordRequest cfg enc encodeTok now email store).store = store := by
  unfold resetPasswordRequest
  cases findOne store email with
  | none => rfl
  | some user =>
    dsimp only
    cases sendResetPassword cfg enc encodeTok now user <;> rfl

/-- `confirmEmailRequest` never mutates the store. -/
theorem confirmEmailRequest_store {Tok : Type} (cfg : Settings)
    (enc : CipherEnc Tok) (encodeTok : Tok → String) (now : Int)
    (email : String) (store : List UserAccount) :
    (confirmEmailRequest cfg enc encodeTok now email store).store = store := by
  unfold confirmEmailRequest
  cases findOne store email with
  | none => rfl
  | some user =>
    dsimp only
    cases sendConfirmEmail cfg enc encodeTok now user <;> rfl

/-- `current` never mutates the store. -/
theorem currentAccount_store (o : Option UserAccount)
    (store : List UserAccount) : (currentAccount o store).store = store := by
  cases o <;> rfl

/-- One step preserves lookups, and the looked-up account's `isConfirmed`
flag is preserved by every operation except ConfirmEmail, which may only
raise it to `true`. -/
theorem stepStore_flag {Tok : Type} (cfg : Settings) (enc : CipherEnc Tok)
    (dec : CipherDec Tok) (encodeTok : Tok → String) (op : Op Tok)
    (store : List UserAccount) (id : String) (u : UserAccount)
    (h : findById store id = some u) :
    ∃ v, findById (stepStore cfg enc dec encodeTok op store) id = some v ∧
      (v.isConfirmed = u.isConfirmed ∨
        (v.isConfirmed = true ∧ op.isConfirmEmailOp = true)) := by
  cases op with
  | opLogin now uid =>
    simp only [stepStore]
    cases hw : findById store uid with
    | none => exact ⟨u, h, Or.inl rfl⟩
    | some w =>
      dsimp only
      rcases login_store cfg now w store with hs | hs
      · rw [hs]; exact ⟨u, h, Or.inl rfl⟩
      · rw [hs]
        obtain ⟨v, hv, hvv⟩ :=
          flag_after_update ({ w with _lastLogin := some now }) h hw rfl
        refine ⟨v, hv, Or.inl ?_⟩
        rcases hvv with rfl | ⟨rfl, rfl⟩ <;> rfl
  | opLogout => exact ⟨u, h, Or.inl rfl⟩
  | opCreate now freshId body =>
    simp only [stepStore]
    rcases create_store cfg enc encodeTok now freshId body store with hs | ⟨p, hs⟩
    · rw [hs]; exact ⟨u, h, Or.inl rfl⟩
    · rw [hs]; exact ⟨u, findById_append h, Or.inl rfl⟩
  | opResetPassword now tok pw =>
    simp only [stepStore]
    rcases resetPassword_store cfg dec now tok pw store with hs | ⟨pid, w, hw, hs⟩
    · rw [hs]; exact ⟨u, h, Or.inl rfl⟩
    · rw [hs]
      obtain ⟨v, hv, hvv⟩ :=
        flag_after_update ({ w with password := pw }) h hw rfl
      refine ⟨v, hv, Or.inl ?_⟩
      rcases hvv with rfl | ⟨rfl, rfl⟩ <;> rfl
  | opResetPasswordRequest now email =>
    simp only [stepStore]
    rw [resetPasswordRequest_store]
    exact ⟨u, h, Or.inl rfl⟩
  | opConfirmEmail now tok =>
    simp only [stepStore]
    rcases confirmEmail_store cfg dec now tok store with hs | ⟨pid, w, hw, hs⟩
    · rw [hs]; exact ⟨u, h, Or.inl rfl⟩
    · rw [hs]
      obtain ⟨v, hv, hvv⟩ :=
        flag_after_update ({ w with isConfirmed := true }) h hw rfl
      rcases hvv with h1 | ⟨h1, h2⟩
      · exact ⟨v, hv, Or.inl (by rw [h1])⟩
      · exact ⟨v, hv, Or.inr ⟨by rw [h1], rfl⟩⟩
  | opConfirmEmailRequest now email =>
    simp only [stepStore]
    rw [confirmEmailRequest_store]
    exact ⟨u, h, Or.inl rfl⟩
  | opChangePassword uid oldPw newPw =>
    simp only [stepStore]
    cases hw : findById store uid with
    | none => exact ⟨u, h, Or.inl rfl⟩
    | some w =>
      dsimp only
      rcases changePassword_store w oldPw newPw store with hs | hs
      · rw [hs]; exact ⟨u, h, Or.inl rfl⟩
      · rw [hs]
        obtain ⟨v, hv, hvv⟩ :=
          flag_after_update ({ w with password := newPw }) h hw rfl
        refine ⟨v, hv, Or.inl ?_⟩
        rcases hvv with rfl | ⟨rfl, rfl⟩ <;> rfl
  | opCurrent uid =>
    simp only [stepStore]
    rw [currentAccount_store]
    exact ⟨u, h, Or.inl rfl⟩
  | opCurrentIsInRole uid role => exact ⟨u, h, Or.inl rfl⟩

/-- A confirmed account stays confirmed under any operation sequence. -/
theorem runOps_flag {Tok : Type} (cfg : Settings) (enc : CipherEnc Tok)
    (dec : CipherDec Tok) (encodeTok : Tok → String) (ops : List (Op Tok))
    (store : List UserAccount) (id : String) (u : UserAccount)
    (h : findById store id = some u) (hc : u.isConfirmed = true) :
    ∃ v, findById (runOps cfg enc dec encodeTok ops store) id = some v ∧
      v.isConfirmed = true := by
  induction ops generalizing store u with
  | nil => exact ⟨u, h, hc⟩
  | cons op rest ih =>
    obtain ⟨w, hw, hwc⟩ := stepStore_flag cfg enc dec encodeTok op store id u h
    have hwt : w.isConfirmed = true := by
      rcases hwc with h1 | ⟨h2, _⟩
      · rw [h1]; exact hc
      · exact h2
    exact ih (stepStore cfg enc dec encodeTok op store) w hw hwt

/-- Claim C9: over every sequence of operations of this core, an
account's `isConfirmed` flag never transitions from `true` to `false`;
and for every single operation other than the ConfirmEmail orchestrator,
the flag of an existing account is unchanged — only ConfirmEmail mutates
it (to `true`). -/
theorem isConfirmed_monotone {Tok : Type} (cfg : Settings)
    (enc : CipherEnc Tok) (dec : CipherDec Tok) (encodeTok : Tok → String) :
    (∀ (ops : List (Op Tok)) (store : List UserAccount) (id : String)
        (u v : UserAccount),
        findById store id = some u → u.isConfirmed = true →
        findById (runOps cfg enc dec encodeTok ops store) id = some v →
        v.isConfirmed = true) ∧
    (∀ (op : Op Tok) (store : List UserAccount) (id : String)
        (u v : UserAccount),
        op.isConfirmEmailOp = false →
        findById store id = some u →
        findById (stepStore cfg enc dec encodeTok op store) id = some v →
        v.isConfirmed = u.isConfirmed) := by
  constructor
  · intro ops store id u v h hc hv
    obtain ⟨w, hw, hwc⟩ := runOps_flag cfg enc dec encodeTok ops store id u h hc
    rw [hv] at hw
    rw [Option.some.inj hw]
    exact hwc
  · intro op store id u v hop h hv
    obtain ⟨w, hw, hwc⟩ := stepStore_flag cfg enc dec encodeTok op store id u h
    rw [hv] at hw
    rw [Option.some.inj hw]
    rcases hwc with h1 | ⟨_, h2⟩
    · exact h1
    · rw [hop] at h2
      cases h2

/-- A confirmed account for the monotonicity witness. -/
def confirmedUser : UserAccount :=
  { sampleUser with _id := "u2", email := "c@d.com", isConfirmed := true }

/-- Witness for C9 at a concrete operation sequence over a store holding
a confirmed account. -/
theorem isConfirmed_monotone_witness :
    ({ confirmedUser with _lastLogin := some 5 } : UserAccount).isConfirmed = true :=
  (@isConfirmed_monotone String cfgConfirm (fun _ _ _ => "t")
    (fun _ _ _ => none) (fun s => s)).1
    [Op.opLogout, Op.opResetPasswordRequest 0 "c@d.com", Op.opLogin 5 "u2"]
    [confirmedUser] "u2" confirmedUser ({ confirmedUser with _lastLogin := some 5 })
    (by decide) (by decide) (by decide)

end MongoConductor
